import Mathlib

/-!
Verification of the paper-summarizer pipeline (Planner–Executor agent,
Section Isolator, Output Sanitizer, PDF text extractor boundary).

Strings are modelled as `List Char`; a Python string literal `"s"` is
embedded as `"s".data`.  External collaborators (the PDF reader used by
`extract_text_from_pdf` and the language model used by
`SummarizerModel.summarize`) are parameters: the reader is a function
returning either a parsed document or an exception, the model call is a
function returning either a generated string or an exception message.
-/

/-- Characters that Python's `str.strip()` / `str.split()` treat as
whitespace (the ASCII ones; the pipeline never produces others). -/
def isPySpace (c : Char) : Bool :=
  c = ' ' || c = '\t' || c = '\n' || c = '\r' || c = Char.ofNat 11 || c = Char.ofNat 12

/-- `p` is a prefix of `s` (both as raw character lists). -/
def isPrefixB : List Char → List Char → Bool
  | [], _ => true
  | _ :: _, [] => false
  | a :: p, b :: s => a = b && isPrefixB p s

/-- Index of the first occurrence of `p` as a contiguous substring of `s`
(Python `s.find(p)` for a non-empty `p`), `none` when absent. -/
def firstOccur (p : List Char) : List Char → Option Nat
  | [] => if p = [] then some 0 else none
  | b :: s => if isPrefixB p (b :: s) then some 0 else (firstOccur p s).map (· + 1)

/-- Python `p in s` (contiguous substring containment). -/
def containsSub (p s : List Char) : Bool := (firstOccur p s).isSome

/-- Python `s.split(p, 1)[0]` / `s.split(p)[0]`: everything strictly before
the first occurrence of `p`; all of `s` when `p` is absent. -/
def takeBefore (p s : List Char) : List Char :=
  match firstOccur p s with
  | some i => s.take i
  | none => s

/-- Python `s.split(p, 1)[1]` (also `[-1]` with maxsplit 1): everything
strictly after the first occurrence of `p`; `s` itself when `p` is absent. -/
def dropAfter (p s : List Char) : List Char :=
  match firstOccur p s with
  | some i => s.drop (i + p.length)
  | none => s

/-- Python `s.strip()`. -/
def strip (s : List Char) : List Char :=
  ((s.dropWhile isPySpace).reverse.dropWhile isPySpace).reverse

/-- Python `s.replace("\n", " ")` (single character for single character). -/
def replaceNl (s : List Char) : List Char :=
  s.map (fun c => if c = '\n' then ' ' else c)

/-- Python `s.replace(p, r)` for a non-empty pattern `p`: scan left to
right, replace each non-overlapping occurrence, never rescanning emitted
text.  For an empty pattern return `s` unchanged (Python would interleave
`r`, but the program only calls this with non-empty patterns). -/
def replaceAll (p r s : List Char) : List Char :=
  if hp : p = [] then s
  else
    match h : firstOccur p s with
    | some i => s.take i ++ r ++ replaceAll p r (s.drop (i + p.length))
    | none => s
termination_by s.length
decreasing_by
  cases s with
  | nil => simp [firstOccur, hp] at h
  | cons c cs =>
    have h1 : 0 < p.length := List.length_pos.mpr hp
    simp only [List.length_drop, List.length_cons]
    omega

/-- Python `s.split()` (split on whitespace runs, no empty fields):
auxiliary accumulator form, `cur` holds the current word reversed. -/
def splitWsAux : List Char → List Char → List (List Char)
  | [], cur => if cur = [] then [] else [cur.reverse]
  | c :: s, cur =>
    if isPySpace c then
      if cur = [] then splitWsAux s [] else cur.reverse :: splitWsAux s []
    else splitWsAux s (c :: cur)

/-- Python `s.split()`. -/
def splitWs (s : List Char) : List (List Char) := splitWsAux s []

/-- Python `" ".join(words)`. -/
def joinSpace : List (List Char) → List Char
  | [] => []
  | [w] => w
  | w :: ws => w ++ ' ' :: joinSpace ws

/-- Python `" ".join(s.split())`: collapse whitespace runs to single
spaces and strip the ends. -/
def collapseWs (s : List Char) : List Char := joinSpace (splitWs s)

/-! ## Section Isolator (`PaperSummarizerAgent._find_abstract`, src/agent.py) -/

/-- The ordered start-marker list of `_find_abstract`. -/
def start_keywords : List (List Char) :=
  ["Abstract".data, "ABSTRACT".data, "Summary".data, "Introduction".data,
   "1. Introduction".data, "I. INTRODUCTION".data]

/-- The ordered end-marker list of `_find_abstract`. -/
def end_keywords : List (List Char) :=
  ["Keywords:".data, "Key words:".data, "1. Introduction".data,
   "1 Introduction".data, "I. INTRODUCTION".data, "Contents".data,
   "Introduction\n".data]

/-- Steps 1–2 of `_find_abstract`: the start-marker loop (first listed
marker contained in the text wins, `break`), with the `text[:3000]`
fallback, then the end-marker loop on the working text. -/
def markerExtract (text : List Char) : List Char :=
  let extracted :=
    match start_keywords.find? (fun k => containsSub k text) with
    | some k => dropAfter k text
    | none => text.take 3000
  match end_keywords.find? (fun k => containsSub k extracted) with
  | some k => takeBefore k extracted
  | none => extracted

/-- Step 3 of `_find_abstract`: `extracted_text.strip().replace("\n", " ")`. -/
def cleanedCandidate (text : List Char) : List Char :=
  replaceNl (strip (markerExtract text))

/-- `PaperSummarizerAgent._find_abstract` (src/agent.py lines 73–134):
marker extraction, cleanup, and the 50-character length validation with
fallback to `text[:2000].replace("\n", " ")`. -/
def find_abstract (text : List Char) : List Char :=
  let cleaned := cleanedCandidate text
  if cleaned.length < 50 then replaceNl (text.take 2000) else cleaned

/-! ## Output Sanitizer (`SummarizerModel.summarize` post-processing,
src/model_simple.py lines 88–116) -/

/-- The expanded hallucination stop-phrase list of
`SummarizerModel.summarize`, in declared order. -/
def stop_phrases : List (List Char) :=
  ["Question:".data, "Questions:".data, "[QUESTION".data, "[Q:".data, "Q:".data,
   "References:".data, "Reference:".data, "Bibliography:".data,
   "\n\n##".data, "##".data,
   "Introduction:".data, "Conclusion:".data,
   "Note:".data, "Notes:".data,
   "Acknowledgment".data, "Acknowledgement".data,
   "Appendix".data, "Figure".data, "Table".data]

/-- One iteration of the stop-phrase loop:
`if phrase in summary: summary = summary.split(phrase)[0].strip()`. -/
def applyStop (s p : List Char) : List Char :=
  if containsSub p s then strip (takeBefore p s) else s

/-- The summary-isolation step of `SummarizerModel.summarize`: keep what
follows the first `"Summary:"` marker; otherwise remove every occurrence
of the prompt from the raw decoded output (defensive fallback). -/
def extractSummaryPart (full_output prompt : List Char) : List Char :=
  if containsSub "Summary:".data full_output then
    strip (dropAfter "Summary:".data full_output)
  else strip (replaceAll prompt [] full_output)

/-- The final length clip of `SummarizerModel.summarize`:
`summary[:800] if len(summary) > 800 else summary`. -/
def clipSummary (s : List Char) : List Char :=
  if s.length > 800 then s.take 800 else s

/-- The whole post-generation cleanup of `SummarizerModel.summarize`
(src/model_simple.py lines 88–116): summary isolation, the ordered
stop-phrase loop, whitespace collapsing `" ".join(summary.split())`, and
the 800-character clip. -/
def sanitize (full_output prompt : List Char) : List Char :=
  clipSummary (collapseWs (stop_phrases.foldl applyStop
    (extractSummaryPart full_output prompt)))

/-- The fixed prompt template of `SummarizerModel.summarize` around
`text[:2000]`. -/
def promptTemplate (text : List Char) : List Char :=
  "You are an academic paper summarizer. Provide a concise, single-paragraph summary of the following abstract.\n\nAbstract:\n".data
    ++ text.take 2000 ++ "\n\nSummary:".data

/-- `SummarizerModel.summarize` with the tokenizer/model pipeline abstracted
as an opaque generator from the prompt to the decoded output. -/
def model_summarize (generate : List Char → List Char) (text : List Char) : List Char :=
  sanitize (generate (promptTemplate text)) (promptTemplate text)

/-! ## PDF extractor boundary (`extract_text_from_pdf`, src/extract.py) -/

/-- The exceptions the `try` of `extract_text_from_pdf` distinguishes:
`FileNotFoundError` from `open`, and anything else (unreadable PDF
structure, read failures, ...) carrying `str(e)`. -/
inductive PdfExc where
  | fileNotFound
  | other (msg : List Char)
deriving DecidableEq

/-- A successfully parsed PDF, as `extract_text_from_pdf` consumes it:
the per-page `page.extract_text()` strings, and the document info
(`pdf_reader.metadata` may be absent/falsy, and when present its
`/Title` entry may be absent). -/
structure PdfDoc where
  pages : List (List Char)
  docinfo : Option (Option (List Char))
deriving DecidableEq

/-- The metadata mapping `extract_text_from_pdf` builds:
`{'num_pages': ..., 'title': ...}`. -/
structure PdfMeta where
  num_pages : Nat
  title : List Char
deriving DecidableEq

/-- The result dictionary of `extract_text_from_pdf`: `success`, `text`,
`metadata` (`none` models the empty dict of the failure branches), and
the `error` key which only the failure branches add. -/
structure ExtractionResult where
  success : Bool
  text : List Char
  metadata : Option PdfMeta
  error : Option (List Char)
deriving DecidableEq

/-- `extract_text_from_pdf` (src/extract.py lines 8–60), with the file
system and PyPDF2 parser abstracted as `readPdf`: page texts are
concatenated with a newline each (empty pages skipped), `'\n\n'` is
replaced by `'\n'` and the ends stripped; `FileNotFoundError` yields
`success=False` with `'File not found: <path>'`, any other exception
yields `success=False` with its message. -/
def extract_text_from_pdf (readPdf : List Char → Except PdfExc PdfDoc)
    (pdf_path : List Char) : ExtractionResult :=
  match readPdf pdf_path with
  | .ok doc =>
    let title :=
      match doc.docinfo with
      | some (some t) => t
      | some none => "Unknown".data
      | none => "Unknown".data
    let full_text :=
      doc.pages.foldl (fun acc t => if t = [] then acc else acc ++ t ++ ['\n']) []
    { success := true,
      text := strip (replaceAll "\n\n".data "\n".data full_text),
      metadata := some ⟨doc.pages.length, title⟩,
      error := none }
  | .error .fileNotFound =>
    { success := false, text := [], metadata := none,
      error := some ("File not found: ".data ++ pdf_path) }
  | .error (.other msg) =>
    { success := false, text := [], metadata := none, error := some msg }

/-! ## Planner–Executor agent (`PaperSummarizerAgent`, src/agent.py) -/

/-- One entry of the plan list `create_plan` builds: the `step`, `action`,
`input` and `description` keys of the step dictionary. -/
structure Step where
  step : Nat
  action : List Char
  input : List Char
  description : List Char
deriving DecidableEq

/-- `PaperSummarizerAgent.create_plan` (src/agent.py lines 30–71): a pure
function of the path; the `print` calls are output only. -/
def create_plan (pdf_path : List Char) : List Step :=
  [⟨1, "extract_text".data, pdf_path, "Extract all text from PDF".data⟩,
   ⟨2, "clean_text".data, "extracted_text".data,
    "Isolate relevant sections (abstract/introduction)".data⟩,
   ⟨3, "summarize".data, "clean_text".data, "Generate concise summary".data⟩,
   ⟨4, "format_output".data, "summary".data, "Format and finalize output".data⟩]

/-- The `results` dictionary `execute_plan` accumulates: each key is
absent (`none`) until its step stores it. -/
structure ExecutionResult where
  extracted : Option ExtractionResult
  clean_text : Option (List Char)
  summary : Option (List Char)
  final_summary : Option (List Char)
  error : Option (List Char)
deriving DecidableEq

/-- The empty `results = {}` dictionary `execute_plan` starts from. -/
def emptyResults : ExecutionResult := ⟨none, none, none, none, none⟩

/-- A single-quote character (code 39), for Python `str(KeyError(key))`,
which renders as the key wrapped in single quotes. -/
def squote : Char := Char.ofNat 39

/-- Python `str(KeyError(key))`. -/
def keyErrMsg (k : List Char) : List Char := squote :: k ++ [squote]

/-- One loop iteration of `PaperSummarizerAgent.execute_plan`
(src/agent.py lines 148–181): dispatch on the step's `action` string,
returning the updated results and whether the loop returns early (an
`extract_text` failure's early `return`, or the `except` handler storing
`error` and returning).  A missing-dictionary-key access raises
`KeyError`, caught by the handler; in particular, after a failed
extraction the code first prints `results['extracted']['error']`, so an
extractor result lacking `error` would itself raise a caught `KeyError`.
An unknown action matches no `elif` and the loop just continues. -/
def execStep (extract : List Char → ExtractionResult)
    (model_sum : List Char → Except (List Char) (List Char))
    (results : ExecutionResult) (s : Step) : ExecutionResult × Bool :=
  if s.action = "extract_text".data then
    let ex := extract s.input
    let r := { results with extracted := some ex }
    if ex.success then (r, false)
    else
      match ex.error with
      | some _ => (r, true)
      | none => ({ r with error := some (keyErrMsg "error".data) }, true)
  else if s.action = "clean_text".data then
    match results.extracted with
    | none => ({ results with error := some (keyErrMsg "extracted".data) }, true)
    | some ex => ({ results with clean_text := some (find_abstract ex.text) }, false)
  else if s.action = "summarize".data then
    match results.clean_text with
    | none => ({ results with error := some (keyErrMsg "clean_text".data) }, true)
    | some ct =>
      match model_sum ct with
      | .error e => ({ results with error := some e }, true)
      | .ok sm => ({ results with summary := some sm }, false)
  else if s.action = "format_output".data then
    match results.summary with
    | none => ({ results with error := some (keyErrMsg "summary".data) }, true)
    | some sm => ({ results with final_summary := some sm }, false)
  else (results, false)

/-- The `for step in plan` loop of `execute_plan`, threading the results
and stopping at the first early return. -/
def execLoop (extract : List Char → ExtractionResult)
    (model_sum : List Char → Except (List Char) (List Char))
    (results : ExecutionResult) : List Step → ExecutionResult
  | [] => results
  | s :: rest =>
    match execStep extract model_sum results s with
    | (r, true) => r
    | (r, false) => execLoop extract model_sum r rest

/-- `PaperSummarizerAgent.execute_plan` (src/agent.py lines 136–183),
with the Text Extractor and the Summarizer Model call as parameters: the
model call returns `.error msg` when it raises an exception whose
`str(e)` is `msg`, `.ok s` when it returns summary `s`. -/
def execute_plan (extract : List Char → ExtractionResult)
    (model_sum : List Char → Except (List Char) (List Char))
    (plan : List Step) : ExecutionResult :=
  execLoop extract model_sum emptyResults plan

/-- `PaperSummarizerAgent.run` (src/agent.py lines 185–216): plan,
execute, and return the final summary, or the empty string on failure. -/
def agent_run (extract : List Char → ExtractionResult)
    (model_sum : List Char → Except (List Char) (List Char))
    (pdf_path : List Char) : List Char :=
  match (execute_plan extract model_sum (create_plan pdf_path)).final_summary with
  | some fs => fs
  | none => []

/-! ## Concrete collaborator instances used in counterexamples and witnesses -/

/-- A Text Extractor reporting a missing file, exactly as
`extract_text_from_pdf` does for `FileNotFoundError`. -/
def failExtract : List Char → ExtractionResult :=
  fun pdf_path => ⟨false, [], none, some ("File not found: ".data ++ pdf_path)⟩

/-- A Text Extractor that succeeds with a short fixed paper text. -/
def okExtract : List Char → ExtractionResult :=
  fun _ => ⟨true, "Abstract\nShort.".data, some ⟨1, "Unknown".data⟩, none⟩

/-- A Summarizer Model call that returns normally. -/
def okModel : List Char → Except (List Char) (List Char) :=
  fun _ => .ok "A concise summary.".data

/-- A Summarizer Model call that raises. -/
def failModel : List Char → Except (List Char) (List Char) :=
  fun _ => .error "RuntimeError: CUDA out of memory".data

/-- Sample paper text in which the fourth-listed start marker
`Introduction` occurs earlier in the text than the first-listed
`Abstract`, yet `Abstract` wins the marker search. -/
def c5Text : List Char :=
  "Introduction comes first here Abstract This abstract sentence is certainly longer than fifty characters in total. Keywords: none".data

/-- A PDF reader for which opening the file raises `FileNotFoundError`. -/
def missingPdfReader : List Char → Except PdfExc PdfDoc :=
  fun _ => .error PdfExc.fileNotFound

/-! ## Theorems -/

/-- Shared characterization of `execute_plan` on the fixed four-step plan
of `create_plan`: a reported extraction failure stops the run with the
error message only inside the `extracted` entry (the top-level `error`
key is set in that case only when the extractor result lacks an `error`
field, via the `KeyError` the failure print raises); a model exception is
stored under `error` after `clean_text`; otherwise all four steps run and
`final_summary` copies `summary`. -/
theorem execute_plan_create_plan (extract : List Char → ExtractionResult)
    (model_sum : List Char → Except (List Char) (List Char)) (path : List Char) :
    execute_plan extract model_sum (create_plan path) =
      if (extract path).success then
        match model_sum (find_abstract (extract path).text) with
        | .ok sm =>
          ⟨some (extract path), some (find_abstract (extract path).text),
           some sm, some sm, none⟩
        | .error e =>
          ⟨some (extract path), some (find_abstract (extract path).text),
           none, none, some e⟩
      else
        match (extract path).error with
        | some _ => ⟨some (extract path), none, none, none, none⟩
        | none =>
          ⟨some (extract path), none, none, none, some (keyErrMsg "error".data)⟩ := by
  cases hs : (extract path).success with
  | false =>
    cases he : (extract path).error with
    | none => simp [execute_plan, create_plan, execLoop, execStep, emptyResults, hs, he]
    | some e => simp [execute_plan, create_plan, execLoop, execStep, emptyResults, hs, he]
  | true =>
    cases hm : model_sum (find_abstract (extract path).text) with
    | ok sm => simp [execute_plan, create_plan, execLoop, execStep, emptyResults, hs, hm]
    | error e => simp [execute_plan, create_plan, execLoop, execStep, emptyResults, hs, hm]

/-- Claim C1, counterexample: with an extractor that reports a missing
file (`success = False`), the result of `execute_plan` on the plan of
`create_plan` contains neither `final_summary` nor `error` — the claim
that one of the two is always present is false on the code. -/
theorem execute_plan_neither_key_cex :
    (failExtract "paper.pdf".data).success = false ∧
    (execute_plan failExtract okModel (create_plan "paper.pdf".data)).final_summary = none ∧
    (execute_plan failExtract okModel (create_plan "paper.pdf".data)).error = none := by
  decide

/-- Claim C1, amended: after `execute_plan` returns on a plan produced by
`create_plan`, the result contains `final_summary`, or `error`, or an
`extracted` entry whose `success` is false (reported extraction failure,
whose message stays inside that entry); and whenever `final_summary` is
present, all four steps ran to completion: extraction succeeded,
`clean_text` holds the isolated section of the extracted text, and
`final_summary` copies `summary`. -/
theorem execute_plan_outcome (extract : List Char → ExtractionResult)
    (model_sum : List Char → Except (List Char) (List Char)) (path : List Char) :
    ((execute_plan extract model_sum (create_plan path)).final_summary.isSome = true ∨
     (execute_plan extract model_sum (create_plan path)).error.isSome = true ∨
     (∃ ex, (execute_plan extract model_sum (create_plan path)).extracted = some ex ∧
        ex.success = false)) ∧
    (∀ fs, (execute_plan extract model_sum (create_plan path)).final_summary = some fs →
       ∃ ex, (execute_plan extract model_sum (create_plan path)).extracted = some ex ∧
         ex.success = true ∧
         (execute_plan extract model_sum (create_plan path)).clean_text =
           some (find_abstract ex.text) ∧
         (execute_plan extract model_sum (create_plan path)).summary = some fs) := by
  rw [execute_plan_create_plan]
  cases hs : (extract path).success with
  | true =>
    rw [if_pos rfl]
    cases hm : model_sum (find_abstract (extract path).text) with
    | ok sm =>
      exact ⟨Or.inl rfl, fun fs hfs => ⟨extract path, rfl, hs, rfl, hfs⟩⟩
    | error e =>
      exact ⟨Or.inr (Or.inl rfl), fun fs hfs => Option.noConfusion hfs⟩
  | false =>
    rw [if_neg (by simp)]
    cases he : (extract path).error with
    | none =>
      exact ⟨Or.inr (Or.inl rfl), fun fs hfs => Option.noConfusion hfs⟩
    | some e =>
      exact ⟨Or.inr (Or.inr ⟨extract path, rfl, hs⟩), fun fs hfs => Option.noConfusion hfs⟩

/-- Claim C1, witness for the completion clause: a fully successful run
produces `final_summary`, and the theorem yields the completion facts for
it. -/
theorem execute_plan_outcome_witness :
    (execute_plan okExtract okModel (create_plan "paper.pdf".data)).final_summary =
      some "A concise summary.".data ∧
    (∃ ex, (execute_plan okExtract okModel (create_plan "paper.pdf".data)).extracted = some ex ∧
      ex.success = true ∧
      (execute_plan okExtract okModel (create_plan "paper.pdf".data)).clean_text =
        some (find_abstract ex.text) ∧
      (execute_plan okExtract okModel (create_plan "paper.pdf".data)).summary =
        some "A concise summary.".data) :=
  ⟨by decide,
   (execute_plan_outcome okExtract okModel "paper.pdf".data).2 "A concise summary.".data
     (by decide)⟩

/-- Claim C2, counterexample: with an extractor that reports failure,
`execute_plan` does not store a top-level `error` key — the returned
result maps `error` (and every key other than `extracted`) to nothing. -/
theorem extraction_failure_no_error_key_cex :
    (failExtract "missing.pdf".data).success = false ∧
    (execute_plan failExtract okModel (create_plan "missing.pdf".data)).error = none ∧
    (execute_plan failExtract okModel (create_plan "missing.pdf".data)).clean_text = none ∧
    (execute_plan failExtract okModel (create_plan "missing.pdf".data)).summary = none ∧
    (execute_plan failExtract okModel (create_plan "missing.pdf".data)).final_summary = none := by
  decide

/-- Claim C2, amended: when the Text Extractor reports failure (with its
error message in its own `error` field, as `extract_text_from_pdf` always
supplies on failure), `execute_plan` returns immediately: the result
holds exactly the failed `extracted` entry, no further step runs, and it
contains none of `clean_text`, `summary`, `final_summary`, nor a
top-level `error` key — the failure message stays inside `extracted`. -/
theorem extraction_failure_halts (extract : List Char → ExtractionResult)
    (model_sum : List Char → Except (List Char) (List Char)) (path msg : List Char)
    (h1 : (extract path).success = false)
    (h2 : (extract path).error = some msg) :
    execute_plan extract model_sum (create_plan path) =
      ⟨some (extract path), none, none, none, none⟩ := by
  rw [execute_plan_create_plan, if_neg (by simp [h1]), h2]

/-- Claim C2, witness: the amended theorem at a concrete missing-file
extractor. -/
theorem extraction_failure_halts_witness :
    (failExtract "missing2.pdf".data).success = false ∧
    (failExtract "missing2.pdf".data).error =
      some ("File not found: ".data ++ "missing2.pdf".data) ∧
    execute_plan failExtract okModel (create_plan "missing2.pdf".data) =
      ⟨some (failExtract "missing2.pdf".data), none, none, none, none⟩ :=
  ⟨rfl, rfl,
   extraction_failure_halts failExtract okModel "missing2.pdf".data
     ("File not found: ".data ++ "missing2.pdf".data) rfl rfl⟩

/-- Claim C3: when extraction succeeded and the Summarizer Model call
raises during the summarize step, `execute_plan` stores the exception
message under `error`, the result contains `clean_text` (the isolated
section of the extracted text), and contains neither `summary` nor
`final_summary`. -/
theorem summarize_failure_handling (extract : List Char → ExtractionResult)
    (model_sum : List Char → Except (List Char) (List Char)) (path e : List Char)
    (h1 : (extract path).success = true)
    (h2 : model_sum (find_abstract (extract path).text) = .error e) :
    (execute_plan extract model_sum (create_plan path)).error = some e ∧
    (execute_plan extract model_sum (create_plan path)).clean_text =
      some (find_abstract (extract path).text) ∧
    (execute_plan extract model_sum (create_plan path)).summary = none ∧
    (execute_plan extract model_sum (create_plan path)).final_summary = none := by
  rw [execute_plan_create_plan, if_pos h1, h2]
  exact ⟨rfl, rfl, rfl, rfl⟩

/-- Claim C3, witness: a successful extraction followed by a model call
that raises `RuntimeError: CUDA out of memory`. -/
theorem summarize_failure_handling_witness :
    (okExtract "p.pdf".data).success = true ∧
    failModel (find_abstract (okExtract "p.pdf".data).text) =
      .error "RuntimeError: CUDA out of memory".data ∧
    ((execute_plan okExtract failModel (create_plan "p.pdf".data)).error =
       some "RuntimeError: CUDA out of memory".data ∧
     (execute_plan okExtract failModel (create_plan "p.pdf".data)).clean_text =
       some (find_abstract (okExtract "p.pdf".data).text) ∧
     (execute_plan okExtract failModel (create_plan "p.pdf".data)).summary = none ∧
     (execute_plan okExtract failModel (create_plan "p.pdf".data)).final_summary = none) :=
  ⟨rfl, rfl,
   summarize_failure_handling okExtract failModel "p.pdf".data
     "RuntimeError: CUDA out of memory".data rfl rfl⟩

/-- Claim C4: for every input string (the empty string included),
`create_plan` returns exactly four steps with ordinals 1, 2, 3, 4 in
order and actions in the fixed order `extract_text`, `clean_text`,
`summarize`, `format_output`; being a total function it never fails. -/
theorem create_plan_shape (pdf_path : List Char) :
    (create_plan pdf_path).length = 4 ∧
    (create_plan pdf_path).map Step.step = [1, 2, 3, 4] ∧
    (create_plan pdf_path).map Step.action =
      ["extract_text".data, "clean_text".data, "summarize".data, "format_output".data] :=
  ⟨rfl, rfl, rfl⟩

/-- Claim C5, counterexample: for the input `"xAbstract\nKeywords:y"`,
which contains `Abstract` and a later `Keywords:`, the isolator's output
is not the stripped, newline-collapsed text between the two markers (that
text cleans to the empty string, so the 50-character validation replaces
it by the 2000-character fallback) — the claim's unconditional "in
particular" clause is false on the code. -/
theorem abstract_keywords_cex :
    containsSub "Abstract".data "xAbstract\nKeywords:y".data = true ∧
    containsSub "Keywords:".data
      (dropAfter "Abstract".data "xAbstract\nKeywords:y".data) = true ∧
    find_abstract "xAbstract\nKeywords:y".data ≠
      replaceNl (strip (takeBefore "Keywords:".data
        (dropAfter "Abstract".data "xAbstract\nKeywords:y".data))) := by
  decide

/-- Claim C5, amended: the winning markers are determined by position in
the fixed lists, not by earliest occurrence in the text — whenever the
text contains `Abstract` anywhere (first entry of the start list) and the
text after its first occurrence contains `Keywords:` (first entry of the
end list), those two win regardless of any other marker occurring earlier
in the text, and the output is the text strictly between the first
`Abstract` and the first following `Keywords:`, stripped and with
newlines replaced by spaces — provided that cleaned text is at least 50
characters long (otherwise the length-validation fallback of C6 takes
over, as the counterexample shows). -/
theorem abstract_keywords_extraction (text : List Char)
    (h1 : containsSub "Abstract".data text = true)
    (h2 : containsSub "Keywords:".data (dropAfter "Abstract".data text) = true)
    (h3 : 50 ≤ (replaceNl (strip (takeBefore "Keywords:".data
        (dropAfter "Abstract".data text)))).length) :
    find_abstract text =
      replaceNl (strip (takeBefore "Keywords:".data (dropAfter "Abstract".data text))) := by
  have hstart : start_keywords.find? (fun k => containsSub k text) = some ("Abstract".data) := by
    unfold start_keywords
    exact List.find?_cons_of_pos _ h1
  have hend : end_keywords.find?
      (fun k => containsSub k (dropAfter "Abstract".data text)) = some ("Keywords:".data) := by
    unfold end_keywords
    exact List.find?_cons_of_pos _ h2
  simp only [find_abstract, cleanedCandidate, markerExtract, hstart, hend]
  exact if_neg (Nat.not_lt.mpr h3)

/-- Claim C5, witness: on `c5Text` the later-listed start marker
`Introduction` occurs earlier in the text, yet the output is the cleaned
text between `Abstract` and `Keywords:`. -/
theorem abstract_keywords_extraction_witness :
    50 ≤ (replaceNl (strip (takeBefore "Keywords:".data
        (dropAfter "Abstract".data c5Text)))).length ∧
    find_abstract c5Text =
      "This abstract sentence is certainly longer than fifty characters in total.".data := by
  refine ⟨by decide, ?_⟩
  rw [abstract_keywords_extraction c5Text (by decide) (by decide) (by decide)]
  decide

/-- Claim C6: whenever the marker-extracted candidate (stripped, newlines
replaced by spaces) is shorter than 50 characters, `_find_abstract`
discards it and returns the first 2000 characters of the original input
with newlines replaced by spaces. -/
theorem short_extraction_fallback (text : List Char)
    (h : (cleanedCandidate text).length < 50) :
    find_abstract text = replaceNl (text.take 2000) := by
  unfold find_abstract
  rw [if_pos h]

/-- Claim C6, witness: the spec's own example `"Abstract\nKeywords:"`,
whose marker extraction cleans to the empty string. -/
theorem short_extraction_fallback_witness :
    (cleanedCandidate "Abstract\nKeywords:".data).length < 50 ∧
    find_abstract "Abstract\nKeywords:".data =
      replaceNl ("Abstract\nKeywords:".data.take 2000) :=
  ⟨by decide, short_extraction_fallback "Abstract\nKeywords:".data (by decide)⟩

/-- Claim C7: the sanitizer applies the declared stop-phrase list in
order, truncating before the first occurrence each time (the definition
of `sanitize` folds `applyStop` left over `stop_phrases`); in particular,
for every prompt, the raw output `"Summary: Paper shows X. Figure 1 shows
Y."` sanitizes to exactly `"Paper shows X."` (truncated at `Figure`). -/
theorem sanitize_figure_truncation (prompt : List Char) :
    sanitize "Summary: Paper shows X. Figure 1 shows Y.".data prompt =
      "Paper shows X.".data := by
  have h : extractSummaryPart "Summary: Paper shows X. Figure 1 shows Y.".data prompt =
      "Paper shows X. Figure 1 shows Y.".data := by
    unfold extractSummaryPart
    rw [if_pos]
    · decide
    · decide
  unfold sanitize
  rw [h]
  decide

/-- Claim C8: for every raw model output and every prompt, the sanitized
result has length at most 800 characters. -/
theorem sanitize_length_bound (full_output prompt : List Char) :
    (sanitize full_output prompt).length ≤ 800 := by
  unfold sanitize clipSummary
  split
  · simp [List.length_take]
  · omega

/-- Claim C9: `extract_text_from_pdf` never raises past its boundary —
every exception of the reader maps to a returned result with
`success = false` and an `error` string; a missing file yields the
descriptive `'File not found: <path>'`, any other internal exception
yields its own message as `error`. -/
theorem extract_reports_failure (readPdf : List Char → Except PdfExc PdfDoc)
    (path : List Char) :
    (∀ e, readPdf path = .error e →
       (extract_text_from_pdf readPdf path).success = false ∧
       (extract_text_from_pdf readPdf path).error.isSome = true) ∧
    (readPdf path = .error PdfExc.fileNotFound →
       extract_text_from_pdf readPdf path =
         ⟨false, [], none, some ("File not found: ".data ++ path)⟩) ∧
    (∀ msg, readPdf path = .error (PdfExc.other msg) →
       extract_text_from_pdf readPdf path = ⟨false, [], none, some msg⟩) := by
  refine ⟨?_, ?_, ?_⟩
  · intro e he
    cases e <;> simp [extract_text_from_pdf, he]
  · intro h
    simp [extract_text_from_pdf, h]
  · intro msg h
    simp [extract_text_from_pdf, h]

/-- Claim C9, witness: a reader whose `open` raises `FileNotFoundError`. -/
theorem extract_reports_failure_witness :
    (extract_text_from_pdf missingPdfReader "missing.pdf".data).success = false ∧
    extract_text_from_pdf missingPdfReader "missing.pdf".data =
      ⟨false, [], none, some ("File not found: ".data ++ "missing.pdf".data)⟩ :=
  ⟨((extract_reports_failure missingPdfReader "missing.pdf".data).1 PdfExc.fileNotFound rfl).1,
   (extract_reports_failure missingPdfReader "missing.pdf".data).2.1 rfl⟩

/-- Claim C10: the length-validation fallback is never re-validated — the
isolator's output can be shorter than 50 characters, and on the empty
input it returns the empty string (the fallback is the raw first 2000
characters of the original, here empty, input). -/
theorem fallback_not_revalidated :
    find_abstract "".data = "".data ∧ (find_abstract "".data).length < 50 := by
  decide
